import Mathlib

set_option autoImplicit false

namespace TabSafe

/-! Shallow embedding of the vorthain tab-safe-timers package (src/index.js).
The Coordinator is the TabSafeTimers class; the Background Scheduler is the
embedded worker (WORKER_CODE). Host function values are opaque references,
JS values are restricted to the fragment the timer API touches. -/

/-- JSVal is the fragment of JS values the timer API manipulates: undefined,
integer-valued numbers, strings (as character lists) and function references.
The constructor int n stands for an integer-valued finite double whose
magnitude is below 10 to the 21st power, the range in which its string form
is positional rather than exponential, so that parseInt applied to such a
number returns the number itself. -/
inductive JSVal where
  | undef
  | int (n : Int)
  | str (s : List Char)
  | fn (f : Nat)
deriving DecidableEq

/-- Models the JS test typeof v === "function". -/
def isFunction : JSVal → Bool
  | .fn _ => true
  | _ => false

/-- Drops leading whitespace characters, as parseInt and Number do. -/
def skipWs : List Char → List Char
  | [] => []
  | c :: cs => if c = ' ' ∨ c = '\t' ∨ c = '\n' ∨ c = '\r' then skipWs cs else c :: cs

/-- Value of the longest leading run of decimal digits; the accumulator is
none until a first digit has been seen, so an empty run yields none (NaN). -/
def digitsVal : List Char → Option Nat → Option Nat
  | [], acc => acc
  | c :: cs, acc =>
    if c.isDigit then digitsVal cs (some ((acc.getD 0) * 10 + (c.toNat - 48)))
    else acc

/-- Value of a hexadecimal digit character, none otherwise. -/
def hexDigitVal (c : Char) : Option Nat :=
  if c.isDigit then some (c.toNat - 48)
  else if 'a' ≤ c ∧ c ≤ 'f' then some (c.toNat - 87)
  else if 'A' ≤ c ∧ c ≤ 'F' then some (c.toNat - 55)
  else none

/-- Value of the longest leading run of hexadecimal digits; the accumulator
is none until a first digit has been seen, so an empty run yields none. -/
def hexDigitsVal : List Char → Option Nat → Option Nat
  | [], acc => acc
  | c :: cs, acc =>
    match hexDigitVal c with
    | some d => hexDigitsVal cs (some ((acc.getD 0) * 16 + d))
    | none => acc

/-- parseInt digit scan with radix auto-detection: a 0x or 0X prefix selects
hexadecimal and is stripped, otherwise the radix is decimal; the longest
valid digit prefix is taken and an empty run is NaN (none). -/
def parseIntDigits : List Char → Option Nat
  | '0' :: 'x' :: rest => hexDigitsVal rest none
  | '0' :: 'X' :: rest => hexDigitsVal rest none
  | t => digitsVal t none

/-- Models parseInt on a string: trim leading whitespace, optional sign,
then the radix-detected longest digit prefix; none is NaN. -/
def parseIntChars (s : List Char) : Option Int :=
  match skipWs s with
  | '-' :: rest => (parseIntDigits rest).map (fun n => -(n : Int))
  | '+' :: rest => (parseIntDigits rest).map (fun n => (n : Int))
  | t => (parseIntDigits t).map (fun n => (n : Int))

/-- Models parseInt(v) on our value fragment. An integer-valued number in
the positional-form range declared for JSVal.int round-trips through its
decimal string, so parseInt returns it unchanged; undefined and functions
stringify to non-numeric text, giving NaN (none). -/
def parseIntJS : JSVal → Option Int
  | .undef => none
  | .int n => some n
  | .str s => parseIntChars s
  | .fn _ => none

/-- Result of the JS Number coercion: NaN, an infinity, or a finite value. -/
inductive JSNum where
  | nan
  | inf
  | negInf
  | val (q : ℚ)
deriving DecidableEq

/-- Value of a digit character in the given base (bases up to 16). -/
def baseDigitVal (base : Nat) (c : Char) : Option Nat :=
  match hexDigitVal c with
  | some d => if d < base then some d else none
  | none => none

/-- Accumulating whole-run scan in the given base; none on a bad digit. -/
def baseAllVal (base : Nat) : List Char → Nat → Option Nat
  | [], acc => some acc
  | c :: cs, acc =>
    match baseDigitVal base c with
    | some d => baseAllVal base cs (acc * base + d)
    | none => none

/-- Whole-run value in the given base: none when the run is empty or any
character is not a digit of the base (Number, unlike parseInt, rejects
trailing text). -/
def baseAll (base : Nat) (cs : List Char) : Option Nat :=
  match cs with
  | [] => none
  | _ => baseAllVal base cs 0

/-- Splits the longest leading run of decimal digits from the rest. -/
def splitDigits : List Char → List Char × List Char
  | [] => ([], [])
  | c :: cs =>
    if c.isDigit then
      let p := splitDigits cs
      (c :: p.1, p.2)
    else ([], c :: cs)

/-- Value of a decimal digit run. -/
def digitsToNat (ds : List Char) : Nat :=
  ds.foldl (fun a c => a * 10 + (c.toNat - 48)) 0

/-- Exponent part after the e or E marker: whether it is well formed (a
nonempty digit run after an optional sign), its value, and the rest. -/
def parseExp : List Char → Bool × Int × List Char
  | '-' :: rest =>
    let p := splitDigits rest
    (!p.1.isEmpty, -(digitsToNat p.1 : Int), p.2)
  | '+' :: rest =>
    let p := splitDigits rest
    (!p.1.isEmpty, (digitsToNat p.1 : Int), p.2)
  | r =>
    let p := splitDigits r
    (!p.1.isEmpty, (digitsToNat p.1 : Int), p.2)

/-- The rational value of integer digits, fraction digits and a decimal
exponent, computed with Nat arithmetic and mkRat so it evaluates. -/
def decLitVal (ipDigits fracDigits : List Char) (e : Int) : ℚ :=
  let num : Nat := digitsToNat ipDigits * 10 ^ fracDigits.length + digitsToNat fracDigits
  if 0 ≤ e then
    mkRat (num * 10 ^ e.toNat : Nat) (10 ^ fracDigits.length)
  else
    mkRat (num : Nat) (10 ^ fracDigits.length * 10 ^ (-e).toNat)

/-- Unsigned decimal literal of the Number grammar: digits with optional
fraction and optional exponent; at least one digit must occur in the
integer or fraction part and the whole input must be consumed; none is
NaN. -/
def decLit (t : List Char) : Option ℚ :=
  let ip := splitDigits t
  let fp : Option (List Char) × List Char :=
    match ip.2 with
    | '.' :: rest =>
      let q := splitDigits rest
      (some q.1, q.2)
    | r => (none, r)
  let frac : List Char := fp.1.getD []
  let hasDigits : Bool := !ip.1.isEmpty || !frac.isEmpty
  let ex : Bool × Int × List Char :=
    match fp.2 with
    | 'e' :: rest => parseExp rest
    | 'E' :: rest => parseExp rest
    | r => (true, 0, r)
  if hasDigits && ex.1 && ex.2.2.isEmpty then
    some (decLitVal ip.1 frac ex.2.1)
  else none

/-- Number coercion of an already trimmed string: empty is 0; the Infinity
forms; a base prefix 0x, 0o or 0b (no sign allowed) selects a whole-string
scan in that base; otherwise an optionally signed decimal literal; anything
else is NaN. -/
def strToNumber (t : List Char) : JSNum :=
  match t with
  | [] => .val 0
  | _ =>
    if t = ['I', 'n', 'f', 'i', 'n', 'i', 't', 'y'] then .inf
    else if t = ['+', 'I', 'n', 'f', 'i', 'n', 'i', 't', 'y'] then .inf
    else if t = ['-', 'I', 'n', 'f', 'i', 'n', 'i', 't', 'y'] then .negInf
    else
      match t with
      | '0' :: 'x' :: rest => ofOpt (baseAll 16 rest)
      | '0' :: 'X' :: rest => ofOpt (baseAll 16 rest)
      | '0' :: 'o' :: rest => ofOpt (baseAll 8 rest)
      | '0' :: 'O' :: rest => ofOpt (baseAll 8 rest)
      | '0' :: 'b' :: rest => ofOpt (baseAll 2 rest)
      | '0' :: 'B' :: rest => ofOpt (baseAll 2 rest)
      | '-' :: rest =>
        match decLit rest with
        | some q => .val (-q)
        | none => .nan
      | '+' :: rest =>
        match decLit rest with
        | some q => .val q
        | none => .nan
      | _ =>
        match decLit t with
        | some q => .val q
        | none => .nan
where
  /-- Lifts an optional base-scan value into JSNum. -/
  ofOpt : Option Nat → JSNum
    | some n => .val (n : ℚ)
    | none => .nan

/-- Models the JS Number(v) coercion, used to state which inputs count as
numeric (NaN is the non-numeric outcome): undefined and functions are NaN,
a number is itself, and a string is read by the Number literal grammar
after trimming whitespace on both ends. -/
def jsToNumber : JSVal → JSNum
  | .undef => .nan
  | .int n => .val (n : ℚ)
  | .fn _ => .nan
  | .str s => strToNumber (skipWs (skipWs s.reverse).reverse)

/-- Models the sanitization line Math.max(0, parseInt(delay) or-else 0):
NaN falls back to 0 via the or-else, then negatives clamp to 0. -/
def sanitizeDelay (delay : JSVal) : Nat :=
  match parseIntJS delay with
  | none => 0
  | some n => if n ≤ 0 then 0 else n.toNat

/-- Lookup in an association list keyed by Nat, first match wins (models
Map.get, which returns undefined when the key is absent). -/
def mapGet {α : Type} : List (Nat × α) → Nat → Option α
  | [], _ => none
  | p :: rest, k => if p.1 = k then some p.2 else mapGet rest k

/-- Models Map.has. -/
def mapHas {α : Type} (m : List (Nat × α)) (k : Nat) : Bool :=
  (mapGet m k).isSome

/-- Models Map.set: replace the entry in place when the key is present,
append otherwise (JS Map preserves insertion order). -/
def mapSet {α : Type} : List (Nat × α) → Nat → α → List (Nat × α)
  | [], k, v => [(k, v)]
  | p :: rest, k, v => if p.1 = k then (k, v) :: rest else p :: mapSet rest k v

/-- Models Map.delete: remove the entry with the given key. -/
def mapDelete {α : Type} : List (Nat × α) → Nat → List (Nat × α)
  | [], _ => []
  | p :: rest, k => if p.1 = k then mapDelete rest k else p :: mapDelete rest k

/-- Kind tag of a stored timer, the type field of a callbacks entry. -/
inductive TKind where
  | interval
  | timeout
deriving DecidableEq

/-- One entry of this.callbacks: kind tag, the callback value, the trailing
arguments captured at registration, and the sanitized delay. -/
structure TimerEntry where
  type : TKind
  callback : JSVal
  args : List Nat
  delay : Nat
deriving DecidableEq

/-- Opaque reference identity of a host function value: arbitrary
pre-existing host functions, or one of the four override closures that
overrideGlobalTimers installs. -/
inductive FnRef where
  | host (n : Nat)
  | ovSetInterval
  | ovSetTimeout
  | ovClearInterval
  | ovClearTimeout
deriving DecidableEq

/-- The four scheduling slots of the window object. -/
structure GlobalFns where
  setInterval : FnRef
  setTimeout : FnRef
  clearInterval : FnRef
  clearTimeout : FnRef
deriving DecidableEq

/-- The function values overrideGlobalTimers installs on window. -/
def overrideFns : GlobalFns :=
  ⟨.ovSetInterval, .ovSetTimeout, .ovClearInterval, .ovClearTimeout⟩

/-- Instance state of the TabSafeTimers class: the constructor fields.
The worker and workerUrl handles are abstracted to a liveness flag. -/
structure TabSafeTimers where
  isInitialized : Bool
  callbacks : List (Nat × TimerEntry)
  idCounter : Nat
  native : Option GlobalFns
  workerAlive : Bool
deriving DecidableEq

/-- Models new TabSafeTimers(): the constructor field initializers. -/
def TabSafeTimers.new : TabSafeTimers :=
  { isInitialized := false, callbacks := [], idCounter := 0
    native := none, workerAlive := false }

/-- Combined state the overrides touch: the window slots plus the instance. -/
structure SysState where
  window : GlobalFns
  tst : TabSafeTimers
deriving DecidableEq

/-- Errors thrown synchronously: TypeError for bad callbacks, Error for
environment failures. -/
inductive JSErr where
  | typeErr (msg : String)
  | err (msg : String)
deriving DecidableEq

/-- Messages the Coordinator posts to the worker (command, id, delay). -/
inductive Command where
  | setIntervalCmd (id : Nat) (delay : Nat)
  | setTimeoutCmd (id : Nat) (delay : Nat)
  | clearIntervalCmd (id : Nat)
  | clearTimeoutCmd (id : Nat)
deriving DecidableEq

/-- Observable invocations of the captured native timer functions. -/
inductive NativeCall where
  | nSetInterval (callback : JSVal) (delay : JSVal) (args : List Nat)
  | nSetTimeout (callback : JSVal) (delay : JSVal) (args : List Nat)
  | nClearInterval (id : Nat)
  | nClearTimeout (id : Nat)
deriving DecidableEq

/-- Return value of a registration override: a fresh TimerId, or whatever
the delegated native call returned (opaque). -/
inductive TimerRet where
  | timerId (n : Nat)
  | nativeRet
deriving DecidableEq

/-- Result of a registration override call: return value, updated state,
messages posted to the worker, native functions invoked. -/
structure RegRes where
  ret : TimerRet
  sys : SysState
  posted : List Command
  ncalls : List NativeCall
deriving DecidableEq

/-- Result of a cancellation override call. -/
structure ClearRes where
  sys : SysState
  posted : List Command
  ncalls : List NativeCall
deriving DecidableEq

/-- Models TabSafeTimers.init: false when already initialized; an Error when
the host lacks window or Worker (envOk is that capability check); otherwise
snapshot the four window slots into this.native, create the worker with its
handlers, install the overrides, set isInitialized, return true. -/
def TabSafeTimers.init (envOk : Bool) (s : SysState) : Except JSErr (Bool × SysState) :=
  if s.tst.isInitialized then .ok (false, s)
  else if envOk = false then
    .error (.err "[TabSafeTimers] Not running in a browser environment or Web Workers not supported")
  else
    .ok (true,
      { window := overrideFns
        tst := { s.tst with
                  native := some s.window
                  workerAlive := true
                  isInitialized := true } })

/-- Models the window.setInterval override: the default parameter binds an
absent (undefined) delay to 0 before the body runs; delegate to the
captured native function when not initialized; throw TypeError on a
non-function callback; sanitize the delay; allocate id = ++idCounter;
store the entry; post the setInterval command. -/
def wsetInterval (s : SysState) (callback : JSVal) (delay : JSVal) (args : List Nat) :
    Except JSErr RegRes :=
  let delay := if delay = JSVal.undef then JSVal.int 0 else delay
  if s.tst.isInitialized = false then
    .ok { ret := .nativeRet, sys := s, posted := []
          ncalls := [.nSetInterval callback delay args] }
  else if isFunction callback = false then
    .error (.typeErr "Callback must be a function")
  else
    let d := sanitizeDelay delay
    let id := s.tst.idCounter + 1
    .ok { ret := .timerId id
          sys := { s with tst := { s.tst with
                    idCounter := id
                    callbacks := mapSet s.tst.callbacks id
                      { type := .interval, callback := callback, args := args, delay := d } } }
          posted := [.setIntervalCmd id d]
          ncalls := [] }

/-- Models the window.setTimeout override, identically structured to the
interval one but storing a timeout-kind entry and posting setTimeout. -/
def wsetTimeout (s : SysState) (callback : JSVal) (delay : JSVal) (args : List Nat) :
    Except JSErr RegRes :=
  let delay := if delay = JSVal.undef then JSVal.int 0 else delay
  if s.tst.isInitialized = false then
    .ok { ret := .nativeRet, sys := s, posted := []
          ncalls := [.nSetTimeout callback delay args] }
  else if isFunction callback = false then
    .error (.typeErr "Callback must be a function")
  else
    let d := sanitizeDelay delay
    let id := s.tst.idCounter + 1
    .ok { ret := .timerId id
          sys := { s with tst := { s.tst with
                    idCounter := id
                    callbacks := mapSet s.tst.callbacks id
                      { type := .timeout, callback := callback, args := args, delay := d } } }
          posted := [.setTimeoutCmd id d]
          ncalls := [] }

/-- Models the window.clearInterval override: delegate when not initialized;
if the id is a known key, delete it and post clearInterval; otherwise fall
back to the captured native clearInterval with the same id. -/
def wclearInterval (s : SysState) (id : Nat) : ClearRes :=
  if s.tst.isInitialized = false then
    { sys := s, posted := [], ncalls := [.nClearInterval id] }
  else if mapHas s.tst.callbacks id then
    { sys := { s with tst := { s.tst with callbacks := mapDelete s.tst.callbacks id } }
      posted := [.clearIntervalCmd id], ncalls := [] }
  else
    { sys := s, posted := [], ncalls := [.nClearInterval id] }

/-- Models the window.clearTimeout override, mirror image of clearInterval. -/
def wclearTimeout (s : SysState) (id : Nat) : ClearRes :=
  if s.tst.isInitialized = false then
    { sys := s, posted := [], ncalls := [.nClearTimeout id] }
  else if mapHas s.tst.callbacks id then
    { sys := { s with tst := { s.tst with callbacks := mapDelete s.tst.callbacks id } }
      posted := [.clearTimeoutCmd id], ncalls := [] }
  else
    { sys := s, posted := [], ncalls := [.nClearTimeout id] }

/-- Messages the worker sends back: a tick notification carrying the id. -/
inductive WMsg where
  | tick (id : Nat)
deriving DecidableEq

/-- Result of the worker.onmessage handler: updated state, the list of
callback invocations performed (callback value with its stored arguments,
in order), and the callbacks whose invocation threw and was logged. -/
structure TickRes where
  sys : SysState
  invoked : List (JSVal × List Nat)
  errors : List JSVal
deriving DecidableEq

/-- Models worker.onmessage on a tick message: look the id up in callbacks;
if absent do nothing; if present invoke the stored callback with the stored
arguments inside try/catch (throws says which callback values throw; a
throw is caught and logged, recorded in errors), then delete the entry when
its kind is timeout. -/
def onMessage (throws : JSVal → Bool) (s : SysState) : WMsg → TickRes
  | .tick id =>
    match mapGet s.tst.callbacks id with
    | none => { sys := s, invoked := [], errors := [] }
    | some cd =>
      { sys := { s with tst := { s.tst with
                  callbacks := if cd.type = TKind.timeout
                               then mapDelete s.tst.callbacks id
                               else s.tst.callbacks } }
        invoked := [(cd.callback, cd.args)]
        errors := if throws cd.callback then [cd.callback] else [] }

/-- Result of TabSafeTimers.destroy: updated state and the cancellation
messages posted to the worker before it is terminated. -/
structure DestroyRes where
  sys : SysState
  posted : List Command
deriving DecidableEq

/-- Models TabSafeTimers.destroy: no-op when not initialized; otherwise
restore the four window slots from this.native, post a clearInterval
command for every id still in callbacks (the source uses clearInterval for
timeout ids too), clear the map, terminate the worker, reset the flag.
this.native is left as captured, as in the source. -/
def destroy (s : SysState) : DestroyRes :=
  if s.tst.isInitialized = false then { sys := s, posted := [] }
  else
    { sys := { window := match s.tst.native with
                         | some nf => nf
                         | none => s.window
               tst := { s.tst with
                         callbacks := []
                         workerAlive := false
                         isInitialized := false } }
      posted := s.tst.callbacks.map (fun p => Command.clearIntervalCmd p.1) }

/-- Worker-side state: the interval and timeout maps from id to the native
timer handle armed inside the worker, plus the next handle the worker side
native scheduler will hand out (real handles are positive, hence start 1). -/
structure WorkerState where
  intervalMap : List (Nat × Nat)
  timeoutMap : List (Nat × Nat)
  nextHandle : Nat
deriving DecidableEq

/-- Worker state at startup: two empty maps. -/
def workerInit : WorkerState :=
  { intervalMap := [], timeoutMap := [], nextHandle := 1 }

/-- Models the worker self.onmessage switch: setInterval and setTimeout arm
a native timer and store its handle under the id; clearInterval and
clearTimeout look the id up in the map of their own kind and, when the
handle is truthy, disarm it and delete the entry, else do nothing. -/
def workerStep (w : WorkerState) : Command → WorkerState
  | .setIntervalCmd id _ =>
    { w with intervalMap := mapSet w.intervalMap id w.nextHandle
             nextHandle := w.nextHandle + 1 }
  | .setTimeoutCmd id _ =>
    { w with timeoutMap := mapSet w.timeoutMap id w.nextHandle
             nextHandle := w.nextHandle + 1 }
  | .clearIntervalCmd id =>
    match mapGet w.intervalMap id with
    | some h => if h ≠ 0 then { w with intervalMap := mapDelete w.intervalMap id } else w
    | none => w
  | .clearTimeoutCmd id =>
    match mapGet w.timeoutMap id with
    | some h => if h ≠ 0 then { w with timeoutMap := mapDelete w.timeoutMap id } else w
    | none => w

/-- The worker processing a queue of commands in order. -/
def processAll (w : WorkerState) (cmds : List Command) : WorkerState :=
  cmds.foldl workerStep w

/-- Module-level state: the window slots and the module-scope singleton
variable that holds the current instance or null. -/
structure ModuleState where
  window : GlobalFns
  inst : Option TabSafeTimers
deriving DecidableEq

/-- Models getTabSafeTimers: return the module-scope instance or null. -/
def getTabSafeTimers (m : ModuleState) : Option TabSafeTimers :=
  m.inst

/-- Models initTabSafeTimers. When no instance exists, the source assigns
instance = new TabSafeTimers() and then calls init; if init throws, the
exception propagates while the assignment to the module variable remains in
effect, so the new state keeps the uninitialized instance alongside the
error. The success=false branch resets the variable and throws. -/
def initTabSafeTimers (envOk : Bool) (m : ModuleState) :
    ModuleState × Except JSErr TabSafeTimers :=
  match m.inst with
  | some t => (m, .ok t)
  | none =>
    let t0 := TabSafeTimers.new
    match TabSafeTimers.init envOk { window := m.window, tst := t0 } with
    | .error e => ({ m with inst := some t0 }, .error e)
    | .ok (success, s1) =>
      if success then
        ({ window := s1.window, inst := some s1.tst }, .ok s1.tst)
      else
        ({ m with inst := none }, .error (.err "Failed to initialize TabSafeTimers"))

/-- Iterated delivery of tick notifications for one id: final state and the
total number of callback invocations performed across the N ticks. -/
def tickN (throws : JSVal → Bool) (id : Nat) : Nat → SysState → SysState × Nat
  | 0, s => (s, 0)
  | n + 1, s =>
    let r := onMessage throws s (.tick id)
    let p := tickN throws id n r.sys
    (p.1, r.invoked.length + p.2)

/-- Folding mapDelete over a list of keys. -/
def deleteAll {α : Type} (m : List (Nat × α)) (ids : List Nat) : List (Nat × α) :=
  ids.foldl mapDelete m

/-- Sample host scheduling functions present on window before activation. -/
def g0 : GlobalFns :=
  { setInterval := .host 10, setTimeout := .host 11
    clearInterval := .host 12, clearTimeout := .host 13 }

/-- The state produced by a successful first activation over g0. -/
def sampleActive : SysState :=
  { window := overrideFns
    tst := { isInitialized := true, callbacks := [], idCounter := 0
             native := some g0, workerAlive := true } }

/-- Active state holding one interval-kind entry under id 1. -/
def sampleInt : SysState :=
  { window := overrideFns
    tst := { isInitialized := true
             callbacks := [(1, { type := .interval, callback := .fn 3, args := [4], delay := 5 })]
             idCounter := 1, native := some g0, workerAlive := true } }

/-- Active state holding a timeout entry under id 1 and an interval entry
under id 2, registered independently. -/
def sampleTwo : SysState :=
  { window := overrideFns
    tst := { isInitialized := true
             callbacks := [(1, { type := .timeout, callback := .fn 0, args := [5], delay := 0 }),
                           (2, { type := .interval, callback := .fn 1, args := [7], delay := 3 })]
             idCounter := 2, native := some g0, workerAlive := true } }

/-- Active state holding one timeout-kind entry under id 1 with delay 0. -/
def s4 : SysState :=
  { window := overrideFns
    tst := { isInitialized := true
             callbacks := [(1, { type := .timeout, callback := .fn 0, args := [], delay := 0 })]
             idCounter := 1, native := some g0, workerAlive := true } }

/-- A callback behaviour under which no callback throws. -/
def throwsNone : JSVal → Bool := fun _ => false

/-- A callback behaviour under which exactly the function value fn 0 throws. -/
def throwsFn0 : JSVal → Bool := fun v => decide (v = JSVal.fn 0)

/-- Module state before any activation attempt. -/
def m0 : ModuleState := { window := g0, inst := none }

/-- Expected result of registering a timeout with delay 3 and argument 9
from the freshly activated state. -/
def c2res : RegRes :=
  { ret := .timerId 1
    sys := { window := overrideFns
             tst := { isInitialized := true
                      callbacks := [(1, { type := .timeout, callback := .fn 0, args := [9], delay := 3 })]
                      idCounter := 1, native := some g0, workerAlive := true } }
    posted := [.setTimeoutCmd 1 3]
    ncalls := [] }

/-- Expected result of registering an interval with delay 2 from the
freshly activated state. -/
def c3res : RegRes :=
  { ret := .timerId 1
    sys := { window := overrideFns
             tst := { isInitialized := true
                      callbacks := [(1, { type := .interval, callback := .fn 0, args := [], delay := 2 })]
                      idCounter := 1, native := some g0, workerAlive := true } }
    posted := [.setIntervalCmd 1 2]
    ncalls := [] }

/-- Expected result of registering a timeout with delay argument -50. -/
def c6resT : RegRes :=
  { ret := .timerId 1
    sys := s4
    posted := [.setTimeoutCmd 1 0]
    ncalls := [] }

/-- Expected result of registering an interval with delay argument -50. -/
def c6resI : RegRes :=
  { ret := .timerId 1
    sys := { window := overrideFns
             tst := { isInitialized := true
                      callbacks := [(1, { type := .interval, callback := .fn 0, args := [], delay := 0 })]
                      idCounter := 1, native := some g0, workerAlive := true } }
    posted := [.setIntervalCmd 1 0]
    ncalls := [] }

/-- Worker state with one armed interval timer for id 1. -/
def w4 : WorkerState := { intervalMap := [(1, 1)], timeoutMap := [], nextHandle := 2 }

/-- The state reached by activating over g and registering one interval. -/
def freshIntervalState (g : GlobalFns) (f : Nat) (d : Int) (args : List Nat) : SysState :=
  { window := overrideFns
    tst := { isInitialized := true
             callbacks := mapSet []
               1 { type := .interval, callback := .fn f, args := args
                   delay := sanitizeDelay (.int d) }
             idCounter := 1, native := some g, workerAlive := true } }

theorem mapGet_set_self {α : Type} (m : List (Nat × α)) (k : Nat) (v : α) :
    mapGet (mapSet m k v) k = some v := by
  induction m with
  | nil => simp [mapSet, mapGet]
  | cons p rest ih =>
    by_cases h : p.1 = k
    · simp [mapSet, h, mapGet]
    · simp [mapSet, h, mapGet, ih]

theorem mapGet_delete_self {α : Type} (m : List (Nat × α)) (k : Nat) :
    mapGet (mapDelete m k) k = none := by
  induction m with
  | nil => simp [mapDelete, mapGet]
  | cons p rest ih =>
    by_cases h : p.1 = k
    · simp [mapDelete, h, ih]
    · simp [mapDelete, h, mapGet, ih]

theorem mapGet_delete_ne {α : Type} (m : List (Nat × α)) (k j : Nat) (h : j ≠ k) :
    mapGet (mapDelete m k) j = mapGet m j := by
  induction m with
  | nil => simp [mapDelete]
  | cons p rest ih =>
    by_cases hp : p.1 = k
    · have hkj : ¬ k = j := fun hh => h hh.symm
      simp [mapDelete, hp, mapGet, hkj, ih]
    · simp [mapDelete, hp, mapGet, ih]

theorem mapGet_delete_of_none {α : Type} (m : List (Nat × α)) (k j : Nat)
    (h : mapGet m j = none) : mapGet (mapDelete m k) j = none := by
  by_cases hj : j = k
  · subst hj; exact mapGet_delete_self _ _
  · rw [mapGet_delete_ne m k j hj, h]

theorem mapGet_mem {α : Type} (m : List (Nat × α)) (k : Nat) (v : α)
    (h : mapGet m k = some v) : (k, v) ∈ m := by
  induction m with
  | nil => simp [mapGet] at h
  | cons p rest ih =>
    by_cases hp : p.1 = k
    · simp [mapGet, hp] at h
      have : p = (k, v) := by
        rcases p with ⟨a, b⟩
        simp only at hp h
        rw [hp, h]
      rw [← this]
      exact List.mem_cons_self p rest
    · simp [mapGet, hp] at h
      exact List.mem_cons_of_mem _ (ih h)

theorem mem_mapDelete {α : Type} (m : List (Nat × α)) (k : Nat) (p : Nat × α)
    (h : p ∈ mapDelete m k) : p ∈ m := by
  induction m with
  | nil => simp [mapDelete] at h
  | cons q rest ih =>
    by_cases hq : q.1 = k
    · simp only [mapDelete, hq, if_pos rfl] at h
      exact List.mem_cons_of_mem _ (ih h)
    · simp only [mapDelete, if_neg hq] at h
      rcases List.mem_cons.mp h with rfl | h2
      · exact List.mem_cons_self _ _
      · exact List.mem_cons_of_mem _ (ih h2)

theorem mapDelete_of_get_none {α : Type} (m : List (Nat × α)) (k : Nat)
    (h : mapGet m k = none) : mapDelete m k = m := by
  induction m with
  | nil => simp [mapDelete]
  | cons p rest ih =>
    by_cases hp : p.1 = k
    · simp [mapGet, hp] at h
    · simp [mapGet, hp] at h
      simp [mapDelete, hp, ih h]

theorem mapGet_deleteAll_of_none {α : Type} (ids : List Nat) (k : Nat) :
    ∀ m : List (Nat × α), mapGet m k = none → mapGet (deleteAll m ids) k = none := by
  induction ids with
  | nil => intro m h; exact h
  | cons i rest ih => intro m h; exact ih (mapDelete m i) (mapGet_delete_of_none m i k h)

theorem mapGet_deleteAll_of_mem {α : Type} (ids : List Nat) (k : Nat) :
    ∀ m : List (Nat × α), k ∈ ids → mapGet (deleteAll m ids) k = none := by
  induction ids with
  | nil => intro m h; cases h
  | cons i rest ih =>
    intro m h
    rcases List.mem_cons.mp h with rfl | hk
    · exact mapGet_deleteAll_of_none rest k (mapDelete m k) (mapGet_delete_self m k)
    · exact ih (mapDelete m i) hk

theorem workerStep_clearInterval_timeoutMap (w : WorkerState) (i : Nat) :
    (workerStep w (.clearIntervalCmd i)).timeoutMap = w.timeoutMap := by
  unfold workerStep
  rcases hg : mapGet w.intervalMap i with _ | h
  · simp [hg]
  · simp only [hg]
    split <;> rfl

theorem workerStep_clearInterval_intervalMap (w : WorkerState) (i : Nat)
    (hw : ∀ p ∈ w.intervalMap, p.2 ≠ 0) :
    (workerStep w (.clearIntervalCmd i)).intervalMap = mapDelete w.intervalMap i := by
  unfold workerStep
  rcases hg : mapGet w.intervalMap i with _ | h
  · simp [hg, mapDelete_of_get_none w.intervalMap i hg]
  · have hne : h ≠ 0 := hw (i, h) (mapGet_mem w.intervalMap i h hg)
    simp [hg, hne]

theorem workerStep_clearInterval_handles (w : WorkerState) (i : Nat)
    (hw : ∀ p ∈ w.intervalMap, p.2 ≠ 0) :
    ∀ p ∈ (workerStep w (.clearIntervalCmd i)).intervalMap, p.2 ≠ 0 := by
  intro p hp
  rw [workerStep_clearInterval_intervalMap w i hw] at hp
  exact hw p (mem_mapDelete w.intervalMap i p hp)

theorem processAll_clearIntervals_timeoutMap (ids : List Nat) :
    ∀ w : WorkerState,
      (processAll w (ids.map Command.clearIntervalCmd)).timeoutMap = w.timeoutMap := by
  induction ids with
  | nil => intro w; rfl
  | cons i rest ih =>
    intro w
    exact (ih (workerStep w (.clearIntervalCmd i))).trans
      (workerStep_clearInterval_timeoutMap w i)

theorem processAll_clearIntervals_intervalMap (ids : List Nat) :
    ∀ w : WorkerState, (∀ p ∈ w.intervalMap, p.2 ≠ 0) →
      (processAll w (ids.map Command.clearIntervalCmd)).intervalMap =
        deleteAll w.intervalMap ids := by
  induction ids with
  | nil => intro w _; rfl
  | cons i rest ih =>
    intro w hw
    have h2 := ih (workerStep w (.clearIntervalCmd i))
      (workerStep_clearInterval_handles w i hw)
    rw [workerStep_clearInterval_intervalMap w i hw] at h2
    exact h2

theorem onMessage_interval_eq (throws : JSVal → Bool) (s : SysState) (id : Nat)
    (e : TimerEntry) (h : mapGet s.tst.callbacks id = some e)
    (hk : e.type = TKind.interval) :
    onMessage throws s (.tick id) =
      { sys := s, invoked := [(e.callback, e.args)]
        errors := if throws e.callback then [e.callback] else [] } := by
  simp only [onMessage]
  rw [h]
  simp [hk]

theorem tickN_interval (throws : JSVal → Bool) (s : SysState) (id : Nat)
    (e : TimerEntry) (h : mapGet s.tst.callbacks id = some e)
    (hk : e.type = TKind.interval) :
    ∀ N, tickN throws id N s = (s, N) := by
  intro N
  induction N with
  | zero => rfl
  | succ n ih =>
    unfold tickN
    rw [onMessage_interval_eq throws s id e h hk]
    simp [ih, Nat.add_comm]

theorem sanitizeDelay_default (v : JSVal) :
    sanitizeDelay (if v = JSVal.undef then JSVal.int 0 else v) = sanitizeDelay v := by
  by_cases hv : v = JSVal.undef
  · subst hv; rfl
  · simp [hv]

/-- C5 is refuted by the code: after an activation attempt that raises the
environment error, the module variable still holds the freshly constructed,
never-initialized instance: getTabSafeTimers returns it rather than the
absent value, and a later activation attempt with a capable environment
returns that same stale instance without constructing or initializing a
fresh Coordinator. -/
theorem c5_stale_singleton_after_env_error :
    (initTabSafeTimers false m0).2 =
      .error (.err "[TabSafeTimers] Not running in a browser environment or Web Workers not supported") ∧
    getTabSafeTimers (initTabSafeTimers false m0).1 = some TabSafeTimers.new ∧
    TabSafeTimers.new.isInitialized = false ∧
    (initTabSafeTimers true (initTabSafeTimers false m0).1).1 = (initTabSafeTimers false m0).1 ∧
    (initTabSafeTimers true (initTabSafeTimers false m0).1).2 = .ok TabSafeTimers.new :=
  ⟨rfl, rfl, rfl, rfl, rfl⟩

/-- C7: when Active, a registration call with a non-invocable callback
raises TypeError synchronously; the error is raised before any mutation, so
no TimerId is allocated, no entry is stored and no message is posted (the
embedding returns only the error, leaving the caller with the old state). -/
theorem c7_nonfunction_callback_rejected (s : SysState)
    (h : s.tst.isInitialized = true) (v : JSVal) (hv : isFunction v = false)
    (d : JSVal) (args : List Nat) :
    wsetInterval s v d args = .error (.typeErr "Callback must be a function") ∧
    wsetTimeout s v d args = .error (.typeErr "Callback must be a function") := by
  constructor <;> simp [wsetInterval, wsetTimeout, h, hv]

/-- C7 witness: passing the number 5 as callback to the Active overrides. -/
theorem c7_nonfunction_callback_rejected_witness :
    wsetInterval sampleActive (.int 5) .undef [] = .error (.typeErr "Callback must be a function") ∧
    wsetTimeout sampleActive (.int 5) .undef [] = .error (.typeErr "Callback must be a function") :=
  c7_nonfunction_callback_rejected sampleActive rfl (.int 5) rfl .undef []

/-- C8: when Active, cancelling an id unknown to the Coordinator invokes the
captured native cancellation function of the same kind with that same id,
leaves the whole state unchanged and posts no message to the worker. -/
theorem c8_unknown_id_native_fallback (s : SysState)
    (h : s.tst.isInitialized = true) (id : Nat)
    (hid : mapHas s.tst.callbacks id = false) :
    wclearInterval s id = { sys := s, posted := [], ncalls := [.nClearInterval id] } ∧
    wclearTimeout s id = { sys := s, posted := [], ncalls := [.nClearTimeout id] } := by
  constructor <;> simp [wclearInterval, wclearTimeout, h, hid]

/-- C8 witness: id 7 is unknown to the freshly activated Coordinator. -/
theorem c8_unknown_id_native_fallback_witness :
    wclearInterval sampleActive 7 =
      { sys := sampleActive, posted := [], ncalls := [.nClearInterval 7] } ∧
    wclearTimeout sampleActive 7 =
      { sys := sampleActive, posted := [], ncalls := [.nClearTimeout 7] } :=
  c8_unknown_id_native_fallback sampleActive rfl 7 rfl

/-- C10: when Active, each cancellation override deletes any stored entry
for the id regardless of the kind of the entry, so a later tick for that id
invokes nothing, while the message posted to the worker carries the kind of
the cancel function that was called, not the kind of the stored entry. -/
theorem c10_cross_kind_cancellation (throws : JSVal → Bool) (s : SysState)
    (h : s.tst.isInitialized = true) (id : Nat) (e : TimerEntry)
    (hin : mapGet s.tst.callbacks id = some e) :
    (wclearTimeout s id).sys.tst.callbacks = mapDelete s.tst.callbacks id ∧
    (wclearTimeout s id).posted = [.clearTimeoutCmd id] ∧
    (wclearInterval s id).sys.tst.callbacks = mapDelete s.tst.callbacks id ∧
    (wclearInterval s id).posted = [.clearIntervalCmd id] ∧
    (onMessage throws (wclearTimeout s id).sys (.tick id)).invoked = [] ∧
    (onMessage throws (wclearInterval s id).sys (.tick id)).invoked = [] := by
  have hhas : mapHas s.tst.callbacks id = true := by simp [mapHas, hin]
  refine ⟨?_, ?_, ?_, ?_, ?_, ?_⟩ <;>
    simp [wclearTimeout, wclearInterval, h, hhas, onMessage, mapGet_delete_self]

/-- C10 witness: the theorem instantiated at the interval-kind entry under
id 1; the projected conjunct shows that a tick delivered after the
clearInterval call invokes nothing. -/
theorem c10_cross_kind_cancellation_witness :
    (onMessage throwsNone (wclearInterval sampleInt 1).sys (WMsg.tick 1)).invoked = [] :=
  (c10_cross_kind_cancellation throwsNone sampleInt rfl 1
    { type := .interval, callback := .fn 3, args := [4], delay := 5 } rfl).2.2.2.2.2

/-- C4 is refuted at a concrete run: registering a timeout from the fresh
Active state yields id 1 and arms it in the worker timeout map; destroy then
posts a clearInterval message for that timeout id, and after the worker
processes the destroy messages the id is still present in the worker
timeout map, so the timeout-kind id is not removed from the armed-timer
mapping of its kind by the cancellation message. -/
theorem c4_destroy_timeout_not_cleared_cex :
    Except.map (fun r => r.sys) (wsetTimeout sampleActive (.fn 0) (.int 0) []) = .ok s4 ∧
    Except.map (fun r => r.posted) (wsetTimeout sampleActive (.fn 0) (.int 0) []) =
      .ok [.setTimeoutCmd 1 0] ∧
    processAll workerInit [.setTimeoutCmd 1 0] =
      { intervalMap := [], timeoutMap := [(1, 1)], nextHandle := 2 } ∧
    (destroy s4).posted = [.clearIntervalCmd 1] ∧
    mapGet (processAll { intervalMap := [], timeoutMap := [(1, 1)], nextHandle := 2 }
      (destroy s4).posted).timeoutMap 1 = some 1 :=
  ⟨rfl, rfl, rfl, rfl, rfl⟩

/-- C6 is refuted: the string 12px is non-numeric (the Number coercion gives
NaN), so the claim requires a dispatched delay of 0, but the code uses
parseInt, which takes the leading digit prefix, and dispatches 12. -/
theorem c6_nonnumeric_prefix_cex :
    jsToNumber (.str ['1', '2', 'p', 'x']) = .nan ∧
    Except.map (fun r => r.posted)
      (wsetTimeout sampleActive (.fn 0) (.str ['1', '2', 'p', 'x']) []) =
      .ok [.setTimeoutCmd 1 12] ∧
    sanitizeDelay (.str ['1', '2', 'p', 'x']) = 12 :=
  ⟨rfl, rfl, rfl⟩

/-- C2: when Active, registering a timeout with an invocable callback, a
delay at least 0, and any trailing arguments yields the next TimerId;
delivering one tick for that id invokes the callback exactly once with
exactly the registered arguments, after which the id is no longer present
in the mapping and a further tick for it invokes nothing. -/
theorem c2_timeout_fires_exactly_once (throws : JSVal → Bool) (s : SysState)
    (h : s.tst.isInitialized = true) (f : Nat) (d : Int) (_hd : 0 ≤ d)
    (args : List Nat) (res : RegRes)
    (hreg : wsetTimeout s (.fn f) (.int d) args = .ok res) :
    res.ret = .timerId (s.tst.idCounter + 1) ∧
    (onMessage throws res.sys (.tick (s.tst.idCounter + 1))).invoked = [(.fn f, args)] ∧
    mapHas (onMessage throws res.sys (.tick (s.tst.idCounter + 1))).sys.tst.callbacks
      (s.tst.idCounter + 1) = false ∧
    (onMessage throws
      (onMessage throws res.sys (.tick (s.tst.idCounter + 1))).sys
      (.tick (s.tst.idCounter + 1))).invoked = [] := by
  unfold wsetTimeout at hreg
  rw [h] at hreg
  simp [isFunction] at hreg
  subst hreg
  refine ⟨rfl, ?_, ?_, ?_⟩ <;>
    simp [onMessage, mapHas, mapGet_set_self, mapGet_delete_self]

/-- C2 witness: timeout with delay 3 and trailing argument 9 from the fresh
Active state fires once with that argument. -/
theorem c2_timeout_fires_exactly_once_witness :
    (onMessage throwsNone c2res.sys (WMsg.tick (sampleActive.tst.idCounter + 1))).invoked =
      [(JSVal.fn 0, [9])] :=
  (c2_timeout_fires_exactly_once throwsNone sampleActive rfl 0 3 (by decide) [9] c2res rfl).2.1

/-- C3: from the freshly activated Coordinator the first interval
registration returns TimerId 1; N delivered ticks invoke the callback
exactly N times; and after clearInterval on that id a further tick invokes
nothing (the handler is total, so nothing is thrown). -/
theorem reg_interval_spec (s : SysState) (h : s.tst.isInitialized = true)
    (f : Nat) (d : Int) (args : List Nat) (res : RegRes)
    (hreg : wsetInterval s (.fn f) (.int d) args = .ok res) :
    res = { ret := .timerId (s.tst.idCounter + 1)
            sys := { s with tst := { s.tst with
                      idCounter := s.tst.idCounter + 1
                      callbacks := mapSet s.tst.callbacks (s.tst.idCounter + 1)
                        { type := .interval, callback := .fn f, args := args
                          delay := sanitizeDelay (.int d) } } }
            posted := [.setIntervalCmd (s.tst.idCounter + 1) (sanitizeDelay (.int d))]
            ncalls := [] } := by
  unfold wsetInterval at hreg
  rw [h] at hreg
  simp [isFunction, sanitizeDelay_default] at hreg
  exact hreg.symm

theorem c3_interval_fires_n_times (throws : JSVal → Bool) (g : GlobalFns)
    (sA : SysState)
    (hact : TabSafeTimers.init true { window := g, tst := TabSafeTimers.new } = .ok (true, sA))
    (f : Nat) (d : Int) (_hd : 0 ≤ d) (args : List Nat) (res : RegRes)
    (hreg : wsetInterval sA (.fn f) (.int d) args = .ok res) (N : Nat) :
    res.ret = .timerId 1 ∧
    (tickN throws 1 N res.sys).2 = N ∧
    (onMessage throws (wclearInterval (tickN throws 1 N res.sys).1 1).sys (.tick 1)).invoked = [] := by
  unfold TabSafeTimers.init at hact
  simp [TabSafeTimers.new] at hact
  subst hact
  have hres := reg_interval_spec _ rfl f d args res hreg
  have hret : res.ret = .timerId 1 := by rw [hres]
  have hsys : res.sys = freshIntervalState g f d args := by rw [hres]; rfl
  rw [hsys]
  have hm1 : mapGet (freshIntervalState g f d args).tst.callbacks 1 =
      some { type := .interval, callback := .fn f, args := args
             delay := sanitizeDelay (.int d) } := mapGet_set_self _ _ _
  have ht := tickN_interval throws (freshIntervalState g f d args) 1 _ hm1 rfl
  refine ⟨hret, ?_, ?_⟩
  · rw [ht N]
  · rw [ht N]
    simp [wclearInterval, freshIntervalState, mapHas, mapGet, mapSet, mapDelete, onMessage]

/-- C3 witness: the concrete scenario with two delivered ticks. -/
theorem c3_interval_fires_n_times_witness :
    (tickN throwsNone 1 2 c3res.sys).2 = 2 :=
  (c3_interval_fires_n_times throwsNone g0 sampleActive rfl 0 2 (by decide) [] c3res rfl 2).2.1

/-- C9: a callback that throws on a tick is caught and reported, the
notification handler returns normally, entries of other TimerIds are
unchanged, and a subsequent tick for a different, independently registered
TimerId still invokes that callback with its stored arguments. -/
theorem c9_callback_fault_isolated (throws : JSVal → Bool) (s : SysState)
    (id1 id2 : Nat) (e1 e2 : TimerEntry) (hne : id2 ≠ id1)
    (h1 : mapGet s.tst.callbacks id1 = some e1)
    (h2 : mapGet s.tst.callbacks id2 = some e2)
    (hthrow : throws e1.callback = true) :
    (onMessage throws s (.tick id1)).invoked = [(e1.callback, e1.args)] ∧
    (onMessage throws s (.tick id1)).errors = [e1.callback] ∧
    (∀ j, j ≠ id1 →
      mapGet (onMessage throws s (.tick id1)).sys.tst.callbacks j = mapGet s.tst.callbacks j) ∧
    (onMessage throws (onMessage throws s (.tick id1)).sys (.tick id2)).invoked =
      [(e2.callback, e2.args)] := by
  have hpres : ∀ j, j ≠ id1 →
      mapGet (onMessage throws s (.tick id1)).sys.tst.callbacks j = mapGet s.tst.callbacks j := by
    intro j hj
    simp only [onMessage]
    rw [h1]
    by_cases he : e1.type = TKind.timeout
    · simp [he, mapGet_delete_ne _ _ _ hj]
    · simp [he]
  refine ⟨?_, ?_, hpres, ?_⟩
  · simp [onMessage, h1]
  · simp [onMessage, h1, hthrow]
  · set t := (onMessage throws s (.tick id1)).sys with hts
    have h2' : mapGet t.tst.callbacks id2 = some e2 := (hpres id2 hne).trans h2
    simp [onMessage, h2']

/-- C9 witness: the throwing timeout under id 1 does not prevent the
interval under id 2 from firing. -/
theorem c9_callback_fault_isolated_witness :
    (onMessage throwsFn0 (onMessage throwsFn0 sampleTwo (WMsg.tick 1)).sys
      (WMsg.tick 2)).invoked = [(JSVal.fn 1, [7])] :=
  (c9_callback_fault_isolated throwsFn0 sampleTwo 1 2
    { type := .timeout, callback := .fn 0, args := [5], delay := 0 }
    { type := .interval, callback := .fn 1, args := [7], delay := 3 }
    (by decide) rfl rfl (by decide)).2.2.2

/-- C4 (amended): at deactivation a cancellation message of the interval
kind is sent for every TimerId still in the mapping and the mapping is
cleared; once the worker processes those messages every such id is removed
from the worker interval map, but the worker timeout map is left untouched,
so timeout-kind ids are not removed from the mapping of their kind by the
messages (they are discarded only when the worker itself is terminated). -/
theorem c4_destroy_scheduler_consistency (s : SysState)
    (h : s.tst.isInitialized = true) (w : WorkerState)
    (hw : ∀ p ∈ w.intervalMap, p.2 ≠ 0) :
    (destroy s).posted = s.tst.callbacks.map (fun p => Command.clearIntervalCmd p.1) ∧
    (destroy s).sys.tst.callbacks = [] ∧
    (processAll w (destroy s).posted).timeoutMap = w.timeoutMap ∧
    ∀ id ∈ s.tst.callbacks.map Prod.fst,
      mapGet (processAll w (destroy s).posted).intervalMap id = none := by
  have hmm : s.tst.callbacks.map (fun p => Command.clearIntervalCmd p.1) =
      (s.tst.callbacks.map Prod.fst).map Command.clearIntervalCmd :=
    (List.map_map _ _ _).symm
  have hp0 : (destroy s).posted = s.tst.callbacks.map (fun p => Command.clearIntervalCmd p.1) := by
    simp [destroy, h]
  have hposted : (destroy s).posted =
      (s.tst.callbacks.map Prod.fst).map Command.clearIntervalCmd := hp0.trans hmm
  refine ⟨hp0, ?_, ?_, ?_⟩
  · simp [destroy, h]
  · rw [hposted]
    exact processAll_clearIntervals_timeoutMap _ w
  · intro id hid
    rw [hposted, processAll_clearIntervals_intervalMap _ w hw]
    exact mapGet_deleteAll_of_mem _ id w.intervalMap hid

/-- C4 witness: the armed interval id 1 is removed from the worker interval
map by the destroy messages. -/
theorem c4_destroy_scheduler_consistency_witness :
    mapGet (processAll w4 (destroy sampleInt).posted).intervalMap 1 = none :=
  (c4_destroy_scheduler_consistency sampleInt rfl w4 (by decide)).2.2.2 1 (by decide)

/-- C6 (amended): the delay dispatched to the worker and stored in the
entry is Math.max(0, parseInt(delay) or-else 0): it is 0 when parseInt
yields NaN (absent input or a string whose leading characters form no
integer under parseInt radix detection, such as abc), 0 when the parsed
value is not positive (such as -50), and otherwise the parseInt value: the
number itself for integer-valued numeric input in the positional-form
range, and for a string the value of its leading integer prefix, read as
hexadecimal when the string starts with 0x or 0X and as decimal otherwise.
In particular -50 and abc both dispatch 0, the non-numeric string 12px
dispatches 12, and the numeric string 0x10 dispatches 16. -/
theorem c6_sanitize_dispatch (s : SysState) (h : s.tst.isInitialized = true)
    (f : Nat) (v : JSVal) (args : List Nat) (res res2 : RegRes)
    (hreg : wsetTimeout s (.fn f) v args = .ok res)
    (hreg2 : wsetInterval s (.fn f) v args = .ok res2) :
    res.posted = [.setTimeoutCmd (s.tst.idCounter + 1) (sanitizeDelay v)] ∧
    mapGet res.sys.tst.callbacks (s.tst.idCounter + 1) =
      some { type := .timeout, callback := .fn f, args := args, delay := sanitizeDelay v } ∧
    res2.posted = [.setIntervalCmd (s.tst.idCounter + 1) (sanitizeDelay v)] ∧
    (parseIntJS v = none → sanitizeDelay v = 0) ∧
    (∀ n : Int, parseIntJS v = some n → n ≤ 0 → sanitizeDelay v = 0) ∧
    (∀ n : Int, parseIntJS v = some n → 0 ≤ n → sanitizeDelay v = n.toNat) ∧
    sanitizeDelay (.int (-50)) = 0 ∧
    sanitizeDelay (.str ['a', 'b', 'c']) = 0 ∧
    sanitizeDelay (.str ['0', 'x', '1', '0']) = 16 ∧
    jsToNumber (.str ['0', 'x', '1', '0']) = .val 16 ∧
    sanitizeDelay .undef = 0 := by
  unfold wsetTimeout at hreg
  unfold wsetInterval at hreg2
  rw [h] at hreg hreg2
  simp [isFunction] at hreg hreg2
  subst hreg
  subst hreg2
  refine ⟨?_, ?_, ?_, ?_, ?_, ?_, by decide, by decide, by decide, by decide, rfl⟩
  · simp [sanitizeDelay_default]
  · simp [mapGet_set_self, sanitizeDelay_default]
  · simp [sanitizeDelay_default]
  · intro hp; simp [sanitizeDelay, hp]
  · intro n hp hn; simp [sanitizeDelay, hp, hn]
  · intro n hp hn
    unfold sanitizeDelay
    rw [hp]
    by_cases h0 : n ≤ 0
    · have hz : n = 0 := le_antisymm h0 hn
      subst hz; simp
    · simp [h0]

/-- C6 witness: delay -50 dispatches 0 on the timeout path. -/
theorem c6_sanitize_dispatch_witness :
    c6resT.posted =
      [Command.setTimeoutCmd (sampleActive.tst.idCounter + 1) (sanitizeDelay (JSVal.int (-50)))] :=
  (c6_sanitize_dispatch sampleActive rfl 0 (.int (-50)) [] c6resT c6resI (by rfl) (by rfl)).1

end TabSafe
